import Mathlib

/-!
# Verification of `add_virtual_column` (src/solution.py)

The repository is a single Python module built on pandas: a function
`add_virtual_column(df, rule, new_column)` that validates a textual binary
arithmetic rule over named columns of a DataFrame and, when valid, returns a
copy of the DataFrame augmented with one computed column; on any validation
failure it returns an empty DataFrame (the sentinel), never raising.

This file gives a shallow embedding of that module and proves the frozen
claims about it.

## Embedding choices
* Python strings are `List Char`.  All string operations the source uses
  (`str.strip`, `str.split` on a one-character separator, `in` on a
  one-character needle, `str.isalnum`, set intersection with a set of
  one-character strings) are modelled character-by-character below.
* A pandas `DataFrame` is an ordered association list of named columns, each
  an ordered list of values; values are modelled as `Int` (the tests use
  Python ints).  `df[c]` is first-match lookup; `df[c] = v` (pandas
  `__setitem__`) overwrites every column named `c` in place when one exists
  and appends a new column otherwise; `df.copy()` is the identity in a pure
  embedding; elementwise Series arithmetic on two equally indexed columns is
  `List.zipWith`.
* Python's `str.isalnum` is Unicode-aware (true for Unicode letters and
  digit-like characters, e.g. `'é'.isalnum() == True`).  `pyIsAlnum` below is
  exact for every code point up to U+00FF (ASCII plus the Latin-1
  supplement); code points above U+00FF are outside the modelled character
  range and mapped to `false`.
* `str.strip()` strips Unicode whitespace; `pyIsSpace` is exact on the
  modelled (Latin-1) range for the characters that can occur here.
-/

set_option autoImplicit false

namespace VirtualColumn

/-- Python strings, modelled as lists of characters. -/
abbrev PyStr := List Char

/-- Column values; the repository's tests use Python ints. -/
abbrev Value := Int

/-- Python `str.isspace` on a single character, restricted to the modelled
Latin-1 range: the ASCII whitespace characters plus U+0085 and U+00A0. -/
def pyIsSpace (c : Char) : Bool :=
  c == ' ' || c == '\t' || c == '\n' || c == '\x0b' || c == '\x0c' ||
  c == '\r' || c.toNat == 0x1c || c.toNat == 0x1d || c.toNat == 0x1e ||
  c.toNat == 0x1f || c.toNat == 0x85 || c.toNat == 0xa0

/-- Python `s.strip()`: drop whitespace from both ends. -/
def pyStrip (s : PyStr) : PyStr :=
  ((s.dropWhile pyIsSpace).reverse.dropWhile pyIsSpace).reverse

/-- Python `s.split(sep)` for a one-character separator `sep`:
`"".split(sep) = [""]`, `"a+b".split('+') = ["a", "b"]`,
`"+b".split('+') = ["", "b"]`, `"a++b".split('+') = ["a", "", "b"]`. -/
def pySplitChar (sep : Char) (s : PyStr) : List PyStr :=
  s.foldr
    (fun c acc =>
      if c = sep then [] :: acc
      else
        match acc with
        | [] => [[c]]
        | s0 :: rest => (c :: s0) :: rest)
    [[]]

/-- Python `c.isalnum()` on a single character.  Python's predicate is
Unicode-aware; this model is exact for all code points up to U+00FF:
ASCII alphanumerics, the Latin-1 letters U+00C0–U+00FF except `×` (U+00D7)
and `÷` (U+00F7), the letters `ª` `µ` `º`, and the numeric characters
`²` `³` `¹` `¼` `½` `¾`.  Code points above U+00FF are outside the modelled
character range. -/
def pyIsAlnum (c : Char) : Bool :=
  c.isAlphanum
  || (0xC0 ≤ c.toNat && c.toNat ≤ 0xFF && c.toNat != 0xD7 && c.toNat != 0xF7)
  || c.toNat == 0xAA || c.toNat == 0xB5 || c.toNat == 0xBA
  || c.toNat == 0xB2 || c.toNat == 0xB3 || c.toNat == 0xB9
  || c.toNat == 0xBC || c.toNat == 0xBD || c.toNat == 0xBE

/-- `ALLOWED_CHARS` from src/solution.py: the characters permitted in a rule. -/
def ALLOWED_CHARS : List Char :=
  "abcdefghijklmnopqrstuvwxyzABCDEFGHIJKLMNOPQRSTUVWXYZ0123456789_ +-*".data

/-- `OPERATORS` from src/solution.py. -/
def OPERATORS : List Char := ['+', '-', '*']

/-- `FORBIDDEN_IN_COLUMN_NAMES` from src/solution.py (equal to the operator
set). -/
def FORBIDDEN_IN_COLUMN_NAMES : List Char := OPERATORS

/-- A pandas DataFrame: an ordered collection of named columns.  Each entry
pairs a column name with its ordered values; the shared index is positional. -/
structure DataFrame where
  cols : List (PyStr × List Value)
deriving DecidableEq

namespace DataFrame

/-- `pd.DataFrame()`: the empty DataFrame (zero columns, zero rows) used as
the failure sentinel. -/
def empty : DataFrame := ⟨[]⟩

/-- `df.columns`: the ordered list of column names. -/
def columns (df : DataFrame) : List PyStr := df.cols.map Prod.fst

/-- `df[name]` as a partial lookup: the first column with the given name. -/
def get? (df : DataFrame) (name : PyStr) : Option (List Value) :=
  (df.cols.find? (fun p => p.1 == name)).map Prod.snd

/-- `df[name]` where the caller has already established that the column
exists (total version, defaulting to the empty column). -/
def getD (df : DataFrame) (name : PyStr) : List Value :=
  (df.get? name).getD []

/-- `df[name] = vals` (pandas `__setitem__`): if a column of that name
exists, every column of that name is overwritten in place (position and name
kept); otherwise the new column is appended on the right. -/
def setCol (df : DataFrame) (name : PyStr) (vals : List Value) : DataFrame :=
  if df.columns.contains name then
    ⟨df.cols.map (fun p => if p.1 == name then (p.1, vals) else p)⟩
  else
    ⟨df.cols ++ [(name, vals)]⟩

/-- Number of columns. -/
def numCols (df : DataFrame) : Nat := df.cols.length

/-- Number of rows: the length of the shared index, read off the first
column (a DataFrame with no columns has zero rows). -/
def numRows (df : DataFrame) : Nat :=
  match df.cols with
  | [] => 0
  | c :: _ => c.2.length

end DataFrame

/-- `_parse_and_validate_rule` from src/solution.py: split `rule` by
`operator`; fail unless exactly two parts result; strip each part; fail if
either is empty; fail unless both name columns present in `df`. -/
def parseAndValidateRule (rule : PyStr) (operator : Char) (df : DataFrame) :
    Option (PyStr × PyStr) :=
  match pySplitChar operator rule with
  | [part_one, part_two] =>
    let column_one := pyStrip part_one
    let column_two := pyStrip part_two
    if column_one.isEmpty || column_two.isEmpty then
      none
    else if !(df.columns.contains column_one) ||
        !(df.columns.contains column_two) then
      none
    else
      some (column_one, column_two)
  | _ => none

/-- `add_virtual_column` from src/solution.py.  The validation pipeline in
source order: existing column names must avoid `+` `-` `*`; the new column
name must be non-empty, contain `_`, and consist of alphanumerics and `_`;
the rule is stripped, checked against `ALLOWED_CHARS`, required to contain
exactly one operator kind, then dispatched to the `+`, `-` or `*` branch,
each of which parses via `parseAndValidateRule` and, on success, copies the
DataFrame and assigns the elementwise result to the new column.  Every
failure returns `DataFrame.empty`. -/
def addVirtualColumn (df : DataFrame) (rule : PyStr) (new_column : PyStr) :
    DataFrame :=
  if df.columns.any
      (fun column_name =>
        column_name.any (fun c => FORBIDDEN_IN_COLUMN_NAMES.contains c)) then
    DataFrame.empty
  else if new_column.isEmpty || !(new_column.contains '_') then
    DataFrame.empty
  else if new_column.any (fun char => !(pyIsAlnum char || char == '_')) then
    DataFrame.empty
  else if (pyStrip rule).any (fun char => !(ALLOWED_CHARS.contains char)) then
    DataFrame.empty
  else if (OPERATORS.filter
      (fun op => (pyStrip rule).contains op)).length ≠ 1 then
    DataFrame.empty
  else if (pyStrip rule).contains '+' then
    match parseAndValidateRule (pyStrip rule) '+' df with
    | none => DataFrame.empty
    | some (column_one, column_two) =>
      (df.setCol new_column
        (List.zipWith (· + ·) (df.getD column_one) (df.getD column_two)))
  else if (pyStrip rule).contains '-' then
    match parseAndValidateRule (pyStrip rule) '-' df with
    | none => DataFrame.empty
    | some (column_one, column_two) =>
      (df.setCol new_column
        (List.zipWith (· - ·) (df.getD column_one) (df.getD column_two)))
  else if (pyStrip rule).contains '*' then
    match parseAndValidateRule (pyStrip rule) '*' df with
    | none => DataFrame.empty
    | some (column_one, column_two) =>
      (df.setCol new_column
        (List.zipWith (· * ·) (df.getD column_one) (df.getD column_two)))
  else
    DataFrame.empty

/-- The three operator characters mapped to the elementwise arithmetic that
the corresponding branch of `add_virtual_column` performs. -/
def opFn (op : Char) : Value → Value → Value :=
  if op = '+' then (· + ·) else if op = '-' then (· - ·) else (· * ·)

/-- The branch `add_virtual_column` dispatches to: the first of `+`, `-`, `*`
contained in the stripped rule, in source order. -/
def selectOp (r : PyStr) : Option Char :=
  if r.contains '+' then some '+'
  else if r.contains '-' then some '-'
  else if r.contains '*' then some '*'
  else none

/-- The operator kinds present in a rule; the source's
`sum(1 for op in OPERATORS if op in rule)` is this list's length. -/
def presentOps (r : PyStr) : List Char :=
  OPERATORS.filter (fun op => r.contains op)

/-- The new-column-name check of `add_virtual_column` (src/solution.py lines
114–119): non-empty, contains an underscore, and every character
alphanumeric-per-Python or an underscore. -/
def newColumnNameOk (nc : PyStr) : Bool :=
  !(nc.isEmpty || !(nc.contains '_')) &&
  !(nc.any (fun char => !(pyIsAlnum char || char == '_')))

/-- The whole validation pipeline of `add_virtual_column` as one Boolean:
existing-column sanity check, new-column-name check, rule character-class
check, single-operator check, and parseability of the dispatched branch.
`addVirtualColumn` returns a non-sentinel result exactly when this holds
(proved below). -/
def validationOk (df : DataFrame) (rule nc : PyStr) : Bool :=
  !(df.columns.any
      (fun column_name =>
        column_name.any (fun c => FORBIDDEN_IN_COLUMN_NAMES.contains c))) &&
  newColumnNameOk nc &&
  !((pyStrip rule).any (fun char => !(ALLOWED_CHARS.contains char))) &&
  ((presentOps (pyStrip rule)).length == 1) &&
  (match selectOp (pyStrip rule) with
   | none => false
   | some op => (parseAndValidateRule (pyStrip rule) op df).isSome)

/-! ## Association-list lemmas for `DataFrame.setCol` and `DataFrame.get?` -/

theorem find?_cons_true {α : Type} (p : α → Bool) (a : α) (l : List α)
    (h : p a = true) : (a :: l).find? p = some a := by
  simp [List.find?, h]

theorem find?_cons_false {α : Type} (p : α → Bool) (a : α) (l : List α)
    (h : p a = false) : (a :: l).find? p = l.find? p := by
  simp [List.find?, h]

theorem find?_map_overwrite (l : List (PyStr × List Value)) (n : PyStr)
    (v : List Value) (h : n ∈ l.map Prod.fst) :
    (l.map (fun p => if p.1 == n then (p.1, v) else p)).find?
      (fun p => p.1 == n) = some (n, v) := by
  induction l with
  | nil => simp at h
  | cons p l ih =>
    obtain ⟨p1, p2⟩ := p
    rw [List.map_cons]
    by_cases hp : p1 = n
    · subst hp
      rw [if_pos (by simp)]
      exact find?_cons_true (fun p => p.1 == p1) (p1, v) _ (by simp)
    · rw [if_neg (by simp [hp])]
      rw [find?_cons_false (fun p => p.1 == n) (p1, p2) _ (by simp [hp])]
      apply ih
      simp only [List.map_cons, List.mem_cons] at h
      rcases h with h1 | h1
      · exact absurd h1.symm hp
      · exact h1

theorem find?_map_overwrite_ne (l : List (PyStr × List Value)) (n m : PyStr)
    (v : List Value) (hmn : m ≠ n) :
    (l.map (fun p => if p.1 == n then (p.1, v) else p)).find?
      (fun p => p.1 == m) =
    l.find? (fun p => p.1 == m) := by
  induction l with
  | nil => rfl
  | cons p l ih =>
    obtain ⟨p1, p2⟩ := p
    rw [List.map_cons]
    by_cases hp : p1 = n
    · subst hp
      have hm : (p1 == m) = false := by
        simp only [beq_eq_false_iff_ne, ne_eq]
        exact fun hc => hmn hc.symm
      rw [if_pos (by simp)]
      rw [find?_cons_false (fun p => p.1 == m) (p1, v) _ hm]
      rw [find?_cons_false (fun p => p.1 == m) (p1, p2) _ hm]
      exact ih
    · rw [if_neg (by simp [hp])]
      by_cases hm : p1 = m
      · subst hm
        rw [find?_cons_true (fun p => p.1 == p1) (p1, p2) _ (by simp)]
        rw [find?_cons_true (fun p => p.1 == p1) (p1, p2) _ (by simp)]
      · rw [find?_cons_false (fun p => p.1 == m) (p1, p2) _ (by simp [hm])]
        rw [find?_cons_false (fun p => p.1 == m) (p1, p2) _ (by simp [hm])]
        exact ih

theorem find?_append_singleton (l : List (PyStr × List Value)) (n : PyStr)
    (v : List Value) (h : n ∉ l.map Prod.fst) :
    (l ++ [(n, v)]).find? (fun p => p.1 == n) = some (n, v) := by
  induction l with
  | nil => exact find?_cons_true (fun p => p.1 == n) (n, v) _ (by simp)
  | cons p l ih =>
    obtain ⟨p1, p2⟩ := p
    simp only [List.map_cons, List.mem_cons] at h
    push_neg at h
    rw [List.cons_append]
    rw [find?_cons_false (fun p => p.1 == n) (p1, p2) _
      (by simp only [beq_eq_false_iff_ne, ne_eq]; exact fun hc => h.1 hc.symm)]
    exact ih h.2

theorem find?_append_singleton_ne (l : List (PyStr × List Value))
    (n m : PyStr) (v : List Value) (hmn : m ≠ n) :
    (l ++ [(n, v)]).find? (fun p => p.1 == m) =
    l.find? (fun p => p.1 == m) := by
  induction l with
  | nil =>
    rw [List.nil_append]
    rw [find?_cons_false (fun p => p.1 == m) (n, v) _
      (by simp only [beq_eq_false_iff_ne, ne_eq]; exact fun hc => hmn hc.symm)]
  | cons p l ih =>
    obtain ⟨p1, p2⟩ := p
    rw [List.cons_append]
    by_cases hm : p1 = m
    · subst hm
      rw [find?_cons_true (fun p => p.1 == p1) (p1, p2) _ (by simp)]
      rw [find?_cons_true (fun p => p.1 == p1) (p1, p2) _ (by simp)]
    · rw [find?_cons_false (fun p => p.1 == m) (p1, p2) _ (by simp [hm])]
      rw [find?_cons_false (fun p => p.1 == m) (p1, p2) _ (by simp [hm])]
      exact ih

namespace DataFrame

theorem contains_iff_mem (df : DataFrame) (n : PyStr) :
    df.columns.contains n = true ↔ n ∈ df.columns := by
  constructor
  · intro h
    exact List.mem_of_elem_eq_true h
  · intro h
    exact List.elem_eq_true_of_mem h

theorem setCol_get_self (df : DataFrame) (n : PyStr) (v : List Value) :
    (df.setCol n v).get? n = some v := by
  unfold setCol
  split
  · next h =>
    have hmem : n ∈ df.cols.map Prod.fst := (df.contains_iff_mem n).mp h
    show ((df.cols.map (fun p => if p.1 == n then (p.1, v) else p)).find?
      (fun p => p.1 == n)).map Prod.snd = some v
    rw [find?_map_overwrite df.cols n v hmem]
    rfl
  · next h =>
    have hmem : n ∉ df.cols.map Prod.fst := fun hc =>
      h ((df.contains_iff_mem n).mpr hc)
    show ((df.cols ++ [(n, v)]).find? (fun p => p.1 == n)).map Prod.snd =
      some v
    rw [find?_append_singleton df.cols n v hmem]
    rfl

theorem setCol_get_ne (df : DataFrame) (n m : PyStr) (v : List Value)
    (hmn : m ≠ n) : (df.setCol n v).get? m = df.get? m := by
  unfold setCol
  split
  · show ((df.cols.map (fun p => if p.1 == n then (p.1, v) else p)).find?
      (fun p => p.1 == m)).map Prod.snd = df.get? m
    rw [find?_map_overwrite_ne df.cols n m v hmn]
    rfl
  · show ((df.cols ++ [(n, v)]).find? (fun p => p.1 == m)).map Prod.snd =
      df.get? m
    rw [find?_append_singleton_ne df.cols n m v hmn]
    rfl

theorem setCol_columns_of_contains (df : DataFrame) (n : PyStr)
    (v : List Value) (h : df.columns.contains n = true) :
    (df.setCol n v).columns = df.columns := by
  unfold setCol
  split
  · show (df.cols.map (fun p => if p.1 == n then (p.1, v) else p)).map
      Prod.fst = df.columns
    rw [List.map_map]
    apply List.map_congr_left
    intro p _
    by_cases hp : p.1 = n <;> simp [hp]
  · next hc => exact absurd h hc

theorem setCol_columns_of_not_contains (df : DataFrame) (n : PyStr)
    (v : List Value) (h : df.columns.contains n = false) :
    (df.setCol n v).columns = df.columns ++ [n] := by
  unfold setCol
  split
  · next hc =>
    rw [h] at hc
    exact absurd hc (by simp)
  · show (df.cols ++ [(n, v)]).map Prod.fst = df.columns ++ [n]
    rw [List.map_append]
    rfl

theorem setCol_numCols_pos (df : DataFrame) (n : PyStr) (v : List Value) :
    0 < (df.setCol n v).numCols := by
  obtain ⟨cols⟩ := df
  unfold setCol
  split
  · next h =>
    have hmem : n ∈ cols.map Prod.fst :=
      (contains_iff_mem ⟨cols⟩ n).mp h
    show 0 < (cols.map (fun p => if p.1 == n then (p.1, v) else p)).length
    rcases cols with _ | ⟨p, l⟩
    · simp at hmem
    · simp
  · show 0 < (cols ++ [(n, v)]).length
    simp

theorem setCol_ne_empty (df : DataFrame) (n : PyStr) (v : List Value) :
    df.setCol n v ≠ DataFrame.empty := by
  intro hc
  have hpos := df.setCol_numCols_pos n v
  rw [hc] at hpos
  simp [numCols, DataFrame.empty] at hpos

theorem get_isSome_of_contains (df : DataFrame) (n : PyStr)
    (h : df.columns.contains n = true) : (df.get? n).isSome = true := by
  have hmem : n ∈ df.cols.map Prod.fst := (df.contains_iff_mem n).mp h
  rcases List.mem_map.mp hmem with ⟨p, hp, hp1⟩
  have hfind : (df.cols.find? (fun q => q.1 == n)).isSome = true := by
    rw [List.find?_isSome]
    exact ⟨p, hp, by simp [hp1]⟩
  unfold get?
  rcases hopt : df.cols.find? (fun q => q.1 == n) with _ | q
  · rw [hopt] at hfind
    simp at hfind
  · rw [hopt]
    rfl

end DataFrame

/-! ## Shape of `addVirtualColumn`: failure and success paths -/

theorem bool_ne_true {b : Bool} (h : b = false) : ¬(b = true) := by
  rw [h]
  exact Bool.false_ne_true

theorem selectOp_of_presentOps_single (r : PyStr) (op : Char)
    (h : presentOps r = [op]) : selectOp r = some op := by
  cases hplus : r.contains '+' <;> cases hminus : r.contains '-' <;>
    cases hstar : r.contains '*' <;>
    simp_all [presentOps, selectOp, OPERATORS, List.filter_cons] <;>
    exact h

/-- On any failed validation, `addVirtualColumn` returns the empty sentinel. -/
theorem addVirtualColumn_of_not_validationOk (df : DataFrame)
    (rule nc : PyStr) (h : validationOk df rule nc = false) :
    addVirtualColumn df rule nc = DataFrame.empty := by
  unfold addVirtualColumn
  by_cases h0 : (df.columns.any fun column_name => column_name.any
      (fun c => FORBIDDEN_IN_COLUMN_NAMES.contains c)) = true
  · rw [if_pos h0]
  · rw [if_neg h0]
    by_cases h1 : (nc.isEmpty || !(nc.contains '_')) = true
    · rw [if_pos h1]
    · rw [if_neg h1]
      by_cases h2 :
          (nc.any fun char => !(pyIsAlnum char || char == '_')) = true
      · rw [if_pos h2]
      · rw [if_neg h2]
        by_cases h3 : ((pyStrip rule).any
            fun char => !(ALLOWED_CHARS.contains char)) = true
        · rw [if_pos h3]
        · rw [if_neg h3]
          by_cases h4 : (OPERATORS.filter
              fun op => (pyStrip rule).contains op).length ≠ 1
          · rw [if_pos h4]
          · rw [if_neg h4]
            rw [Bool.not_eq_true] at h0 h1 h2 h3
            rw [not_ne_iff] at h4
            have hA : (!(df.columns.any fun column_name => column_name.any
                fun c => FORBIDDEN_IN_COLUMN_NAMES.contains c)) = true := by
              rw [h0]
              rfl
            have hB : newColumnNameOk nc = true := by
              unfold newColumnNameOk
              rw [h1, h2]
              rfl
            have hC : (!((pyStrip rule).any
                fun char => !(ALLOWED_CHARS.contains char))) = true := by
              rw [h3]
              rfl
            have hD : ((presentOps (pyStrip rule)).length == 1) = true := by
              unfold presentOps
              rw [h4]
              rfl
            have hV : validationOk df rule nc =
                (match selectOp (pyStrip rule) with
                 | none => false
                 | some op =>
                   (parseAndValidateRule (pyStrip rule) op df).isSome) := by
              unfold validationOk
              rw [hA, hB, hC, hD]
              simp only [Bool.true_and]
            have hE := hV.symm.trans h
            by_cases hplus : (pyStrip rule).contains '+' = true
            · rw [if_pos hplus]
              have hop : selectOp (pyStrip rule) = some '+' := by
                unfold selectOp
                rw [hplus]
                rfl
              rw [hop] at hE
              simp only at hE
              rcases hp :
                  parseAndValidateRule (pyStrip rule) '+' df with _ | ⟨c1, c2⟩
              · rfl
              · rw [hp] at hE
                simp at hE
            · rw [if_neg hplus]
              rw [Bool.not_eq_true] at hplus
              by_cases hminus : (pyStrip rule).contains '-' = true
              · rw [if_pos hminus]
                have hop : selectOp (pyStrip rule) = some '-' := by
                  unfold selectOp
                  rw [hplus, hminus]
                  rfl
                rw [hop] at hE
                simp only at hE
                rcases hp : parseAndValidateRule (pyStrip rule) '-' df
                  with _ | ⟨c1, c2⟩
                · rfl
                · rw [hp] at hE
                  simp at hE
              · rw [if_neg hminus]
                rw [Bool.not_eq_true] at hminus
                by_cases hstar : (pyStrip rule).contains '*' = true
                · rw [if_pos hstar]
                  have hop : selectOp (pyStrip rule) = some '*' := by
                    unfold selectOp
                    rw [hplus, hminus, hstar]
                    rfl
                  rw [hop] at hE
                  simp only at hE
                  rcases hp : parseAndValidateRule (pyStrip rule) '*' df
                    with _ | ⟨c1, c2⟩
                  · rfl
                  · rw [hp] at hE
                    simp at hE
                · rw [if_neg hstar]

/-- On a passed validation, `addVirtualColumn` assigns to the new column the
elementwise arithmetic of the two parsed operand columns of the input. -/
theorem addVirtualColumn_of_validationOk (df : DataFrame) (rule nc : PyStr)
    (h : validationOk df rule nc = true) :
    ∃ op c1 c2, selectOp (pyStrip rule) = some op ∧
      parseAndValidateRule (pyStrip rule) op df = some (c1, c2) ∧
      addVirtualColumn df rule nc =
        df.setCol nc (List.zipWith (opFn op) (df.getD c1) (df.getD c2)) := by
  simp only [validationOk, Bool.and_eq_true] at h
  obtain ⟨⟨⟨⟨h0, h1⟩, h2⟩, h3⟩, h4⟩ := h
  rw [Bool.not_eq_true'] at h0 h2
  simp only [newColumnNameOk, Bool.and_eq_true, Bool.not_eq_true'] at h1
  obtain ⟨h1a, h1b⟩ := h1
  simp only [beq_iff_eq, presentOps] at h3
  by_cases hplus : (pyStrip rule).contains '+' = true
  · have hop : selectOp (pyStrip rule) = some '+' := by
      unfold selectOp
      rw [hplus]
      rfl
    rw [hop] at h4
    simp only at h4
    obtain ⟨⟨c1, c2⟩, hp⟩ := Option.isSome_iff_exists.mp h4
    refine ⟨'+', c1, c2, hop, hp, ?_⟩
    unfold addVirtualColumn
    rw [if_neg (bool_ne_true h0), if_neg (bool_ne_true h1a),
      if_neg (bool_ne_true h1b), if_neg (bool_ne_true h2),
      if_neg (fun hc => hc h3), if_pos hplus, hp]
    simp [opFn]
  · by_cases hminus : (pyStrip rule).contains '-' = true
    · have hop : selectOp (pyStrip rule) = some '-' := by
        unfold selectOp
        rw [Bool.not_eq_true] at hplus
        rw [hplus, hminus]
        rfl
      rw [hop] at h4
      simp only at h4
      obtain ⟨⟨c1, c2⟩, hp⟩ := Option.isSome_iff_exists.mp h4
      refine ⟨'-', c1, c2, hop, hp, ?_⟩
      unfold addVirtualColumn
      rw [if_neg (bool_ne_true h0), if_neg (bool_ne_true h1a),
        if_neg (bool_ne_true h1b), if_neg (bool_ne_true h2),
        if_neg (fun hc => hc h3), if_neg hplus, if_pos hminus, hp]
      simp [opFn]
    · by_cases hstar : (pyStrip rule).contains '*' = true
      · have hop : selectOp (pyStrip rule) = some '*' := by
          unfold selectOp
          rw [Bool.not_eq_true] at hplus hminus
          rw [hplus, hminus, hstar]
          rfl
        rw [hop] at h4
        simp only at h4
        obtain ⟨⟨c1, c2⟩, hp⟩ := Option.isSome_iff_exists.mp h4
        refine ⟨'*', c1, c2, hop, hp, ?_⟩
        unfold addVirtualColumn
        rw [if_neg (bool_ne_true h0), if_neg (bool_ne_true h1a),
          if_neg (bool_ne_true h1b), if_neg (bool_ne_true h2),
          if_neg (fun hc => hc h3), if_neg hplus, if_neg hminus,
          if_pos hstar, hp]
        simp [opFn]
      · have hop : selectOp (pyStrip rule) = none := by
          unfold selectOp
          rw [Bool.not_eq_true] at hplus hminus hstar
          rw [hplus, hminus, hstar]
          rfl
        rw [hop] at h4
        simp at h4

/-- Validation success and failure are decided by `validationOk`, and only a
success escapes the sentinel. -/
theorem addVirtualColumn_eq_empty_iff (df : DataFrame) (rule nc : PyStr) :
    addVirtualColumn df rule nc = DataFrame.empty ↔
      validationOk df rule nc = false := by
  constructor
  · intro he
    by_contra hc
    rw [Bool.not_eq_false] at hc
    obtain ⟨op, c1, c2, _, _, hres⟩ :=
      addVirtualColumn_of_validationOk df rule nc hc
    rw [he] at hres
    exact DataFrame.setCol_ne_empty df nc _ hres.symm
  · exact addVirtualColumn_of_not_validationOk df rule nc

theorem validationOk_of_ne_empty (df : DataFrame) (rule nc : PyStr)
    (h : addVirtualColumn df rule nc ≠ DataFrame.empty) :
    validationOk df rule nc = true := by
  by_contra hc
  rw [Bool.not_eq_true] at hc
  exact h (addVirtualColumn_of_not_validationOk df rule nc hc)

/-! ## Example frames (from the repository's tests) -/

/-- The two-column frame the repository's tests build:
`pd.DataFrame([[1, 1]] * 2, columns=["label_one", "label_two"])`. -/
def exDf : DataFrame :=
  ⟨[("label_one".data, [1, 1]), ("label_two".data, [1, 1])]⟩

/-- A small two-column frame used for the overwrite counterexamples. -/
def exDf2 : DataFrame := ⟨[("a_b".data, [1]), ("c_d".data, [2])]⟩

/-! ## Claims -/

/-- **C3.** Every call returns a value (the embedding is a total function);
the returned frame is the zero-column sentinel exactly when the validation
pipeline fails; any failure yields zero columns and zero rows; a success is
never the sentinel. -/
theorem claim_C3_sentinel (df : DataFrame) (rule nc : PyStr) :
    ((addVirtualColumn df rule nc).numCols = 0 ↔
      validationOk df rule nc = false) ∧
    (validationOk df rule nc = false →
      addVirtualColumn df rule nc = DataFrame.empty ∧
      (addVirtualColumn df rule nc).numCols = 0 ∧
      (addVirtualColumn df rule nc).numRows = 0) := by
  constructor
  · constructor
    · intro h0
      by_contra hc
      rw [Bool.not_eq_false] at hc
      obtain ⟨op, c1, c2, _, _, hres⟩ :=
        addVirtualColumn_of_validationOk df rule nc hc
      have hpos := DataFrame.setCol_numCols_pos df nc
        (List.zipWith (opFn op) (df.getD c1) (df.getD c2))
      rw [← hres] at hpos
      omega
    · intro h0
      rw [addVirtualColumn_of_not_validationOk df rule nc h0]
      rfl
  · intro h0
    have he := addVirtualColumn_of_not_validationOk df rule nc h0
    exact ⟨he, by rw [he]; rfl, by rw [he]; rfl⟩

/-- Witness for C3 at the repository's own failing test input (`"label3"`
lacks an underscore). -/
theorem claim_C3_sentinel_witness :
    validationOk exDf "label_one + label_two".data "label3".data = false ∧
    (addVirtualColumn exDf "label_one + label_two".data "label3".data =
      DataFrame.empty ∧
    (addVirtualColumn exDf "label_one + label_two".data
      "label3".data).numCols = 0 ∧
    (addVirtualColumn exDf "label_one + label_two".data
      "label3".data).numRows = 0) :=
  ⟨by decide,
   (claim_C3_sentinel exDf "label_one + label_two".data "label3".data).2
     (by decide)⟩

/-- **C5.** Unless exactly one operator kind is present in the stripped rule,
the call fails; in particular a rule containing both `+` and `-` fails, no
matter how often each occurs. -/
theorem claim_C5_single_operator (df : DataFrame) (rule nc : PyStr) :
    ((presentOps (pyStrip rule)).length ≠ 1 →
      addVirtualColumn df rule nc = DataFrame.empty) ∧
    ((pyStrip rule).contains '+' = true → (pyStrip rule).contains '-' = true →
      addVirtualColumn df rule nc = DataFrame.empty) := by
  have hmain : (presentOps (pyStrip rule)).length ≠ 1 →
      addVirtualColumn df rule nc = DataFrame.empty := by
    intro hlen
    apply addVirtualColumn_of_not_validationOk
    unfold validationOk
    have hcnt : ((presentOps (pyStrip rule)).length == 1) = false := by
      rw [beq_eq_false_iff_ne]
      exact hlen
    rw [hcnt]
    simp
  refine ⟨hmain, fun hplus hminus => hmain ?_⟩
  have hplusM : '+' ∈ pyStrip rule := List.mem_of_elem_eq_true hplus
  have hminusM : '-' ∈ pyStrip rule := List.mem_of_elem_eq_true hminus
  by_cases hstarM : '*' ∈ pyStrip rule <;>
    simp [presentOps, OPERATORS, List.filter_cons, hplusM, hminusM, hstarM]

/-- Witness for C5 at the rule `"label_one +- label_two"` (both `+` and `-`
present). -/
theorem claim_C5_single_operator_witness :
    (presentOps (pyStrip "label_one +- label_two".data)).length ≠ 1 ∧
    addVirtualColumn exDf "label_one +- label_two".data "label_three".data =
      DataFrame.empty :=
  ⟨by decide,
   (claim_C5_single_operator exDf "label_one +- label_two".data
     "label_three".data).1 (by decide)⟩

/-- **C6.** When exactly one operator kind is present, the call fails unless
splitting on it yields exactly two parts, both non-empty after trimming and
both naming existing columns — `parseAndValidateRule` is precisely that
check, so its failure forces the sentinel. -/
theorem claim_C6_split_resolve (df : DataFrame) (rule nc : PyStr) (op : Char)
    (hone : presentOps (pyStrip rule) = [op])
    (hparse : parseAndValidateRule (pyStrip rule) op df = none) :
    addVirtualColumn df rule nc = DataFrame.empty := by
  apply addVirtualColumn_of_not_validationOk
  unfold validationOk
  rw [selectOp_of_presentOps_single _ _ hone]
  simp [hparse]

/-- Witness for C6 at the three-segment rule `"label_one + label_two +
label_one"` (only `+` present, but the split has three parts). -/
theorem claim_C6_split_resolve_witness :
    presentOps (pyStrip "label_one + label_two + label_one".data) = ['+'] ∧
    parseAndValidateRule
      (pyStrip "label_one + label_two + label_one".data) '+' exDf = none ∧
    addVirtualColumn exDf "label_one + label_two + label_one".data
      "label_three".data = DataFrame.empty :=
  ⟨by decide, by decide,
   claim_C6_split_resolve exDf "label_one + label_two + label_one".data
     "label_three".data '+' (by decide) (by decide)⟩

/-- **C7.** If any existing column name contains one of `+`, `-`, `*`, the
call fails for every rule and every new-column name: the check is the very
first step, before any rule handling. -/
theorem claim_C7_operator_in_columns (df : DataFrame) (rule nc : PyStr)
    (h : ∃ name ∈ df.columns, ∃ c ∈ name, c ∈ FORBIDDEN_IN_COLUMN_NAMES) :
    addVirtualColumn df rule nc = DataFrame.empty := by
  have hany : (df.columns.any fun column_name =>
      column_name.any fun c => FORBIDDEN_IN_COLUMN_NAMES.contains c) = true := by
    rw [List.any_eq_true]
    obtain ⟨name, hn, c, hc, hcf⟩ := h
    refine ⟨name, hn, ?_⟩
    rw [List.any_eq_true]
    exact ⟨c, hc, List.elem_eq_true_of_mem hcf⟩
  unfold addVirtualColumn
  rw [if_pos hany]

/-- Witness for C7: a frame whose column `"a-b"` carries the character
`'-'`, with an otherwise perfectly valid rule and new-column name. -/
theorem claim_C7_operator_in_columns_witness :
    (∃ name ∈ (DataFrame.mk [("a-b".data, [1]), ("c_d".data, [2])]).columns,
      ∃ c ∈ name, c ∈ FORBIDDEN_IN_COLUMN_NAMES) ∧
    addVirtualColumn ⟨[("a-b".data, [1]), ("c_d".data, [2])]⟩
      "c_d + c_d".data "e_f".data = DataFrame.empty :=
  ⟨⟨"a-b".data, by decide, '-', by decide, by decide⟩,
   claim_C7_operator_in_columns _ _ _
     ⟨"a-b".data, by decide, '-', by decide, by decide⟩⟩

/-- **C9.** If any character of the stripped rule lies outside
`ALLOWED_CHARS`, the call fails. -/
theorem claim_C9_rule_charset (df : DataFrame) (rule nc : PyStr)
    (h : ∃ c ∈ pyStrip rule, c ∉ ALLOWED_CHARS) :
    addVirtualColumn df rule nc = DataFrame.empty := by
  apply addVirtualColumn_of_not_validationOk
  unfold validationOk
  have hany : ((pyStrip rule).any
      fun char => !(ALLOWED_CHARS.contains char)) = true := by
    rw [List.any_eq_true]
    obtain ⟨c, hc, hcn⟩ := h
    refine ⟨c, hc, ?_⟩
    have hcc : ALLOWED_CHARS.contains c = false := by
      cases hcase : ALLOWED_CHARS.contains c
      · rfl
      · exact absurd (List.mem_of_elem_eq_true hcase) hcn
    rw [hcc]
    rfl
  rw [hany]
  simp

/-- Witness for C9 at the repository's own test rule
`"label&one + label_two"` (`'&'` is not allowed). -/
theorem claim_C9_rule_charset_witness :
    (∃ c ∈ pyStrip "label&one + label_two".data, c ∉ ALLOWED_CHARS) ∧
    addVirtualColumn exDf "label&one + label_two".data "label_three".data =
      DataFrame.empty :=
  ⟨⟨'&', by decide, by decide⟩,
   claim_C9_rule_charset exDf "label&one + label_two".data
     "label_three".data ⟨'&', by decide, by decide⟩⟩

/-- **C1, counterexample.** When the new-column name equals the left operand
(`"a_b"`), the call succeeds and overwrites that column, so reading the
operands back from the *result* — as the claim does — falsifies the stated
equation: the new column's row-0 value is `3`, while the operator applied to
the result's operand columns at row 0 gives `3 + 2 = 5`. -/
theorem claim_C1_counterexample :
    addVirtualColumn exDf2 "a_b + c_d".data "a_b".data ≠ DataFrame.empty ∧
    parseAndValidateRule (pyStrip "a_b + c_d".data) '+' exDf2 =
      some ("a_b".data, "c_d".data) ∧
    ((addVirtualColumn exDf2 "a_b + c_d".data "a_b".data).getD
      "a_b".data).get? 0 = some 3 ∧
    ((addVirtualColumn exDf2 "a_b + c_d".data "a_b".data).getD
      "c_d".data).get? 0 = some 2 ∧
    (3 : Value) ≠ 3 + 2 := by
  decide

/-- **C1, amended.** For every successful call, the new column's values are
the elementwise application of the resolved operator to the two resolved
operand columns *of the input frame* (equivalently, of the result whenever
the new-column name differs from both operands). -/
theorem claim_C1_elementwise (df : DataFrame) (rule nc : PyStr)
    (h : addVirtualColumn df rule nc ≠ DataFrame.empty) :
    ∃ op c1 c2, selectOp (pyStrip rule) = some op ∧
      parseAndValidateRule (pyStrip rule) op df = some (c1, c2) ∧
      (addVirtualColumn df rule nc).get? nc =
        some (List.zipWith (opFn op) (df.getD c1) (df.getD c2)) := by
  obtain ⟨op, c1, c2, hop, hp, hres⟩ :=
    addVirtualColumn_of_validationOk df rule nc
      (validationOk_of_ne_empty df rule nc h)
  refine ⟨op, c1, c2, hop, hp, ?_⟩
  rw [hres]
  exact DataFrame.setCol_get_self df nc _

/-- Witness for the amended C1 at the repository's first test scenario. -/
theorem claim_C1_elementwise_witness :
    ∃ op c1 c2, selectOp (pyStrip "label_one+label_two".data) = some op ∧
      parseAndValidateRule (pyStrip "label_one+label_two".data) op exDf =
        some (c1, c2) ∧
      (addVirtualColumn exDf "label_one+label_two".data
        "label_three".data).get? "label_three".data =
        some (List.zipWith (opFn op) (exDf.getD c1) (exDf.getD c2)) :=
  claim_C1_elementwise exDf "label_one+label_two".data "label_three".data
    (by decide)

/-- **C2, counterexample.** At the same overwriting input the result keeps
the input's column list (no column is added) and the pre-existing column
`"a_b"` changes value — both conjuncts of the claim fail. -/
theorem claim_C2_counterexample :
    addVirtualColumn exDf2 "a_b + c_d".data "a_b".data ≠ DataFrame.empty ∧
    (addVirtualColumn exDf2 "a_b + c_d".data "a_b".data).columns =
      exDf2.columns ∧
    (addVirtualColumn exDf2 "a_b + c_d".data "a_b".data).columns ≠
      exDf2.columns ++ ["a_b".data] ∧
    (addVirtualColumn exDf2 "a_b + c_d".data "a_b".data).get? "a_b".data ≠
      exDf2.get? "a_b".data := by
  decide

/-- **C2, amended.** For every successful call whose new-column name is not
already a column, the result is exactly the original columns plus the new
one, and every pre-existing column keeps its values and row order; columns
other than the new-column name are preserved in every successful call. -/
theorem claim_C2_frame (df : DataFrame) (rule nc : PyStr)
    (h : addVirtualColumn df rule nc ≠ DataFrame.empty) :
    (df.columns.contains nc = false →
      (addVirtualColumn df rule nc).columns = df.columns ++ [nc]) ∧
    ∀ c, c ∈ df.columns → c ≠ nc →
      (addVirtualColumn df rule nc).get? c = df.get? c := by
  obtain ⟨op, c1, c2, hop, hp, hres⟩ :=
    addVirtualColumn_of_validationOk df rule nc
      (validationOk_of_ne_empty df rule nc h)
  constructor
  · intro hfresh
    rw [hres]
    exact DataFrame.setCol_columns_of_not_contains df nc _ hfresh
  · intro c hc hcn
    rw [hres]
    exact DataFrame.setCol_get_ne df nc c _ hcn

/-- Witness for the amended C2 at the repository's first test scenario. -/
theorem claim_C2_frame_witness :
    ((exDf.columns.contains "label_three".data = false →
      (addVirtualColumn exDf "label_one+label_two".data
        "label_three".data).columns = exDf.columns ++ ["label_three".data]) ∧
    ∀ c, c ∈ exDf.columns → c ≠ "label_three".data →
      (addVirtualColumn exDf "label_one+label_two".data
        "label_three".data).get? c = exDf.get? c) ∧
    (addVirtualColumn exDf "label_one+label_two".data
      "label_three".data).columns = exDf.columns ++ ["label_three".data] :=
  ⟨claim_C2_frame exDf "label_one+label_two".data "label_three".data
    (by decide),
   (claim_C2_frame exDf "label_one+label_two".data "label_three".data
    (by decide)).1 (by decide)⟩

/-- **C10.** If the whole validation passes and the new-column name already
names a column, the call still succeeds: the column set is unchanged, the
existing column of that name now holds the computed elementwise result, and
every other column is untouched. -/
theorem claim_C10_overwrite (df : DataFrame) (rule nc : PyStr)
    (hok : validationOk df rule nc = true)
    (hmem : df.columns.contains nc = true) :
    addVirtualColumn df rule nc ≠ DataFrame.empty ∧
    (addVirtualColumn df rule nc).columns = df.columns ∧
    (∃ op c1 c2, selectOp (pyStrip rule) = some op ∧
      parseAndValidateRule (pyStrip rule) op df = some (c1, c2) ∧
      (addVirtualColumn df rule nc).get? nc =
        some (List.zipWith (opFn op) (df.getD c1) (df.getD c2))) ∧
    ∀ c, c ∈ df.columns → c ≠ nc →
      (addVirtualColumn df rule nc).get? c = df.get? c := by
  obtain ⟨op, c1, c2, hop, hp, hres⟩ :=
    addVirtualColumn_of_validationOk df rule nc hok
  refine ⟨?_, ?_, ⟨op, c1, c2, hop, hp, ?_⟩, ?_⟩
  · rw [hres]
    exact DataFrame.setCol_ne_empty df nc _
  · rw [hres]
    exact DataFrame.setCol_columns_of_contains df nc _ hmem
  · rw [hres]
    exact DataFrame.setCol_get_self df nc _
  · intro c hc hcn
    rw [hres]
    exact DataFrame.setCol_get_ne df nc c _ hcn

/-- Witness for C10: overwriting the operand column `"a_b"` itself. -/
theorem claim_C10_overwrite_witness :
    addVirtualColumn exDf2 "a_b + c_d".data "a_b".data ≠ DataFrame.empty ∧
    (addVirtualColumn exDf2 "a_b + c_d".data "a_b".data).columns =
      exDf2.columns ∧
    (∃ op c1 c2, selectOp (pyStrip "a_b + c_d".data) = some op ∧
      parseAndValidateRule (pyStrip "a_b + c_d".data) op exDf2 =
        some (c1, c2) ∧
      (addVirtualColumn exDf2 "a_b + c_d".data "a_b".data).get? "a_b".data =
        some (List.zipWith (opFn op) (exDf2.getD c1) (exDf2.getD c2))) ∧
    ∀ c, c ∈ exDf2.columns → c ≠ "a_b".data →
      (addVirtualColumn exDf2 "a_b + c_d".data "a_b".data).get? c =
        exDf2.get? c :=
  claim_C10_overwrite exDf2 "a_b + c_d".data "a_b".data
    (by decide) (by decide)

/-! ## C4: the new-column-name check versus the spec's character class -/

/-- The new-column-name rule exactly as the spec words it: a non-empty
string over the character class `[A-Za-z0-9_]` containing at least one
underscore (`Char.isAlphanum` is the ASCII class `[A-Za-z0-9]`). -/
def specNewColumnNameOk (nc : PyStr) : Bool :=
  !nc.isEmpty && nc.contains '_' &&
  nc.all (fun c => c.isAlphanum || c == '_')

/-- On the ASCII range, `pyIsAlnum` is exactly the class `[A-Za-z0-9]`;
the divergence from the spec's class is confined to non-ASCII characters. -/
theorem pyIsAlnum_ascii (c : Char) (h : c.toNat < 128) :
    pyIsAlnum c = c.isAlphanum := by
  unfold pyIsAlnum
  cases hb : c.isAlphanum
  · simp
    omega
  · simp

theorem not_any_not_eq_all (nc : PyStr)
    (hpt : ∀ c ∈ nc, pyIsAlnum c = c.isAlphanum) :
    (!(nc.any fun char => !(pyIsAlnum char || char == '_'))) =
    nc.all (fun c => c.isAlphanum || c == '_') := by
  induction nc with
  | nil => rfl
  | cons a l ih =>
    rw [List.any_cons, List.all_cons, Bool.not_or,
      ih (fun c hc => hpt c (List.mem_cons_of_mem a hc)),
      hpt a (List.mem_cons_self a l), Bool.not_not]

/-- **C4, counterexample.** Python's `str.isalnum` is Unicode-aware, so the
name `"é_"` — which contains the character `'é'`, outside `[A-Za-z0-9_]` —
passes the code's new-column-name check, and a call using it succeeds
instead of failing as the claim requires. -/
theorem claim_C4_counterexample :
    (∃ c ∈ (['é', '_'] : PyStr), ¬(c.isAlphanum = true ∨ c = '_')) ∧
    newColumnNameOk ['é', '_'] = true ∧
    specNewColumnNameOk ['é', '_'] = false ∧
    addVirtualColumn exDf2 "a_b + c_d".data ['é', '_'] ≠ DataFrame.empty := by
  refine ⟨⟨'é', by decide, by decide⟩, by decide, by decide, by decide⟩

/-- **C4, amended.** The call fails whenever the code's new-column-name
check fails, i.e. when the name is empty, has no underscore, or contains a
character that is neither alphanumeric in Python's Unicode-aware sense nor
`'_'`; restricted to ASCII names the code's check coincides exactly with the
spec's class `[A-Za-z0-9_]`-with-underscore (the original claim), while
non-ASCII Unicode alphanumerics are additionally accepted. -/
theorem claim_C4_new_column_name (df : DataFrame) (rule nc : PyStr) :
    (newColumnNameOk nc = false →
      addVirtualColumn df rule nc = DataFrame.empty) ∧
    ((∀ c ∈ nc, c.toNat < 128) →
      newColumnNameOk nc = specNewColumnNameOk nc) := by
  constructor
  · intro hbad
    apply addVirtualColumn_of_not_validationOk
    unfold validationOk
    rw [hbad]
    simp
  · intro hascii
    unfold newColumnNameOk specNewColumnNameOk
    rw [Bool.not_or, Bool.not_not,
      not_any_not_eq_all nc (fun c hc => pyIsAlnum_ascii c (hascii c hc))]

/-- Witness for the amended C4: the repository's failing test name
`"label3"` (no underscore), plus the ASCII coincidence at `"label_three"`. -/
theorem claim_C4_new_column_name_witness :
    (newColumnNameOk "label3".data = false ∧
      addVirtualColumn exDf "label_one + label_two".data "label3".data =
        DataFrame.empty) ∧
    ((∀ c ∈ "label_three".data, c.toNat < 128) ∧
      newColumnNameOk "label_three".data =
        specNewColumnNameOk "label_three".data) :=
  ⟨⟨by decide,
    (claim_C4_new_column_name exDf "label_one + label_two".data
      "label3".data).1 (by decide)⟩,
   ⟨by decide,
    (claim_C4_new_column_name exDf "label_one + label_two".data
      "label_three".data).2 (by decide)⟩⟩

/-! ## C8: whitespace tolerance -/

theorem contains_eq_true_iff (l : PyStr) (c : Char) :
    l.contains c = true ↔ c ∈ l :=
  ⟨List.mem_of_elem_eq_true, List.elem_eq_true_of_mem⟩

theorem dropWhile_append_all (p : Char → Bool) (w l : PyStr)
    (hw : w.all p = true) : (w ++ l).dropWhile p = l.dropWhile p := by
  induction w with
  | nil => rfl
  | cons a w ih =>
    rw [List.all_cons, Bool.and_eq_true] at hw
    rw [List.cons_append, List.dropWhile_cons, hw.1, if_pos rfl]
    exact ih hw.2

theorem dropWhile_cons_of_false (p : Char → Bool) (a : Char) (l : PyStr)
    (h : p a = false) : (a :: l).dropWhile p = a :: l := by
  rw [List.dropWhile_cons, h, if_neg Bool.false_ne_true]

theorem getLast_nonspace (t : PyStr)
    (ht : t.all (fun c => !(pyIsSpace c)) = true) :
    ∀ c, t.getLast? = some c → pyIsSpace c = false := by
  intro c hc
  have hrev : t.reverse.head? = some c := by
    rw [List.head?_reverse]
    exact hc
  have hmem : c ∈ t := by
    rw [← List.mem_reverse]
    exact List.mem_of_mem_head? (Option.mem_def.mpr hrev)
  have hall := List.all_eq_true.mp ht c hmem
  rwa [Bool.not_eq_true'] at hall

/-- Stripping removes exactly the all-whitespace padding around a segment
whose first and last characters are not whitespace. -/
theorem pyStrip_sandwich (w v : PyStr) (a : Char) (x' : PyStr)
    (hw : w.all pyIsSpace = true) (hv : v.all pyIsSpace = true)
    (ha : pyIsSpace a = false)
    (hlast : ∀ c, (a :: x').getLast? = some c → pyIsSpace c = false) :
    pyStrip (w ++ (a :: x') ++ v) = a :: x' := by
  unfold pyStrip
  rw [List.append_assoc, dropWhile_append_all pyIsSpace w _ hw,
    List.cons_append, dropWhile_cons_of_false pyIsSpace a _ ha,
    List.reverse_cons, List.reverse_append, List.append_assoc,
    dropWhile_append_all pyIsSpace v.reverse _
      (by rw [List.all_reverse]; exact hv)]
  rcases hxr : x'.reverse with _ | ⟨b, r⟩
  · rw [List.nil_append, dropWhile_cons_of_false pyIsSpace a _ ha]
    have hx' : x' = [] := by simpa using congrArg List.reverse hxr
    subst hx'
    rfl
  · have hb : pyIsSpace b = false := by
      apply hlast
      rw [← List.head?_reverse, List.reverse_cons, hxr]
      rfl
    rw [List.cons_append, dropWhile_cons_of_false pyIsSpace b _ hb,
      ← List.cons_append, ← hxr]
    simp

/-- A segment with non-whitespace first and last characters strips to
itself. -/
theorem pyStrip_clean (a : Char) (x' : PyStr)
    (ha : pyIsSpace a = false)
    (hlast : ∀ c, (a :: x').getLast? = some c → pyIsSpace c = false) :
    pyStrip (a :: x') = a :: x' := by
  have h := pyStrip_sandwich [] [] a x' rfl rfl ha hlast
  simpa using h

theorem pySplitChar_cons (sep a : Char) (s : PyStr) :
    pySplitChar sep (a :: s) =
      if a = sep then [] :: pySplitChar sep s
      else
        match pySplitChar sep s with
        | [] => [[a]]
        | s0 :: rest => (a :: s0) :: rest := rfl

theorem pySplitChar_no_sep (sep : Char) (s : PyStr)
    (h : ∀ c ∈ s, ¬(c = sep)) : pySplitChar sep s = [s] := by
  induction s with
  | nil => rfl
  | cons a s ih =>
    rw [pySplitChar_cons, if_neg (h a (List.mem_cons_self a s)),
      ih (fun c hc => h c (List.mem_cons_of_mem a hc))]

theorem pySplitChar_append_sep (sep : Char) (xs ys : PyStr)
    (h : ∀ c ∈ xs, ¬(c = sep)) :
    pySplitChar sep (xs ++ sep :: ys) = xs :: pySplitChar sep ys := by
  induction xs with
  | nil =>
    rw [List.nil_append, pySplitChar_cons, if_pos rfl]
  | cons a xs ih =>
    rw [List.cons_append, pySplitChar_cons,
      if_neg (h a (List.mem_cons_self a xs)),
      ih (fun c hc => h c (List.mem_cons_of_mem a hc))]

/-- Space-only padding around the operator does not change the operand
parse. -/
theorem parse_eq_padded (df : DataFrame) (op : Char) (t1 t2 w2 w3 : PyStr)
    (hw2 : ∀ c ∈ w2, c = ' ') (hw3 : ∀ c ∈ w3, c = ' ')
    (hspop : ¬(' ' = op))
    (ht1ns : t1.all (fun c => !(pyIsSpace c)) = true)
    (ht2ns : t2.all (fun c => !(pyIsSpace c)) = true)
    (ht1no : ∀ c ∈ t1, ¬(c = op)) (ht2no : ∀ c ∈ t2, ¬(c = op))
    (hne1 : t1 ≠ []) (hne2 : t2 ≠ []) :
    parseAndValidateRule (t1 ++ w2 ++ op :: (w3 ++ t2)) op df =
    parseAndValidateRule (t1 ++ op :: t2) op df := by
  obtain ⟨a1, t1', rfl⟩ := List.exists_cons_of_ne_nil hne1
  obtain ⟨a2, t2', rfl⟩ := List.exists_cons_of_ne_nil hne2
  have ha1 : pyIsSpace a1 = false := by
    have h := List.all_eq_true.mp ht1ns a1 (List.mem_cons_self _ _)
    rwa [Bool.not_eq_true'] at h
  have ha2 : pyIsSpace a2 = false := by
    have h := List.all_eq_true.mp ht2ns a2 (List.mem_cons_self _ _)
    rwa [Bool.not_eq_true'] at h
  have hlast1 := getLast_nonspace _ ht1ns
  have hlast2 := getLast_nonspace _ ht2ns
  have hw2all : w2.all pyIsSpace = true :=
    List.all_eq_true.mpr fun c hc => by rw [hw2 c hc]; decide
  have hw3all : w3.all pyIsSpace = true :=
    List.all_eq_true.mpr fun c hc => by rw [hw3 c hc]; decide
  have hno1 : ∀ c ∈ (a1 :: t1') ++ w2, ¬(c = op) := by
    intro c hc heq
    rcases List.mem_append.mp hc with h1 | h1
    · exact ht1no c h1 heq
    · exact hspop ((hw2 c h1) ▸ heq)
  have hno2 : ∀ c ∈ w3 ++ (a2 :: t2'), ¬(c = op) := by
    intro c hc heq
    rcases List.mem_append.mp hc with h1 | h1
    · exact hspop ((hw3 c h1) ▸ heq)
    · exact ht2no c h1 heq
  have hsp1 : pySplitChar op
      ((a1 :: t1') ++ w2 ++ op :: (w3 ++ (a2 :: t2'))) =
      ((a1 :: t1') ++ w2) :: [w3 ++ (a2 :: t2')] := by
    rw [pySplitChar_append_sep op ((a1 :: t1') ++ w2) (w3 ++ (a2 :: t2'))
      hno1, pySplitChar_no_sep op (w3 ++ (a2 :: t2')) hno2]
  have hsp2 : pySplitChar op ((a1 :: t1') ++ op :: (a2 :: t2')) =
      (a1 :: t1') :: [a2 :: t2'] := by
    rw [pySplitChar_append_sep op (a1 :: t1') (a2 :: t2') ht1no,
      pySplitChar_no_sep op (a2 :: t2') ht2no]
  have hst1 : pyStrip ((a1 :: t1') ++ w2) = a1 :: t1' := by
    have h := pyStrip_sandwich [] w2 a1 t1' rfl hw2all ha1 hlast1
    rwa [List.nil_append] at h
  have hst2 : pyStrip (w3 ++ (a2 :: t2')) = a2 :: t2' := by
    have h := pyStrip_sandwich w3 [] a2 t2' hw3all rfl ha2 hlast2
    rwa [List.append_nil] at h
  have hst3 : pyStrip (a1 :: t1') = a1 :: t1' := pyStrip_clean a1 t1' ha1 hlast1
  have hst4 : pyStrip (a2 :: t2') = a2 :: t2' := pyStrip_clean a2 t2' ha2 hlast2
  unfold parseAndValidateRule
  rw [hsp1, hsp2]
  simp only [hst1, hst2, hst3, hst4]

/-- `addVirtualColumn` depends on its rule only through the stripped rule's
character-class check, its operator membership, and the operand parse. -/
theorem addVirtualColumn_rule_congr (df : DataFrame) (nc r1 r2 : PyStr)
    (hchars : ((pyStrip r1).any fun char => !(ALLOWED_CHARS.contains char)) =
      ((pyStrip r2).any fun char => !(ALLOWED_CHARS.contains char)))
    (hplus : (pyStrip r1).contains '+' = (pyStrip r2).contains '+')
    (hminus : (pyStrip r1).contains '-' = (pyStrip r2).contains '-')
    (hstar : (pyStrip r1).contains '*' = (pyStrip r2).contains '*')
    (hparse : ∀ d ∈ OPERATORS, parseAndValidateRule (pyStrip r1) d df =
      parseAndValidateRule (pyStrip r2) d df) :
    addVirtualColumn df r1 nc = addVirtualColumn df r2 nc := by
  have hfil : (OPERATORS.filter fun op => (pyStrip r1).contains op) =
      (OPERATORS.filter fun op => (pyStrip r2).contains op) := by
    simp only [OPERATORS, List.filter_cons, List.filter_nil]
    rw [hplus, hminus, hstar]
  unfold addVirtualColumn
  rw [hchars, hfil, hplus, hminus, hstar, hparse '+' (by decide),
    hparse '-' (by decide), hparse '*' (by decide)]

/-- **C8, counterexample.** A tab is whitespace to Python's `strip` (and to
the spec's "whitespace"), yet `'\t'` is not in `ALLOWED_CHARS`, so the rule
`"label_one\t+ label_two"` — which differs from `"label_one+ label_two"`
only by a whitespace character immediately before the operator — returns
the sentinel while the unpadded rule succeeds: the two results differ. -/
theorem claim_C8_counterexample :
    pyIsSpace '\t' = true ∧
    addVirtualColumn exDf "label_one\t+ label_two".data "label_three".data =
      DataFrame.empty ∧
    addVirtualColumn exDf "label_one+ label_two".data "label_three".data ≠
      DataFrame.empty ∧
    addVirtualColumn exDf "label_one\t+ label_two".data "label_three".data ≠
      addVirtualColumn exDf "label_one+ label_two".data "label_three".data
    := by
  decide

/-- **C8, amended.** Rules differing only by leading/trailing whitespace (of
any kind) and by *space characters* immediately around the operator yield
identical results, for every frame and new-column name: here `t1`/`t2` are
the operand tokens (no whitespace, no operator characters), `w1`/`w4`
arbitrary whitespace padding at the ends, and `w2`/`w3` runs of `' '`
around the operator.  (Non-space whitespace inside the rule is rejected by
the character-class check, as the counterexample shows.) -/
theorem claim_C8_whitespace (df : DataFrame) (nc t1 t2 w1 w2 w3 w4 : PyStr)
    (op : Char) (hop : op ∈ OPERATORS)
    (hw1 : w1.all pyIsSpace = true) (hw4 : w4.all pyIsSpace = true)
    (hw2 : ∀ c ∈ w2, c = ' ') (hw3 : ∀ c ∈ w3, c = ' ')
    (ht1 : t1.all (fun c => !(pyIsSpace c) && !(OPERATORS.contains c)) = true)
    (ht2 : t2.all (fun c => !(pyIsSpace c) && !(OPERATORS.contains c)) = true)
    (hne1 : t1 ≠ []) (hne2 : t2 ≠ []) :
    addVirtualColumn df (w1 ++ (t1 ++ w2 ++ op :: (w3 ++ t2)) ++ w4) nc =
    addVirtualColumn df (t1 ++ op :: t2) nc := by
  have hd_ne_space : ∀ d ∈ OPERATORS, ¬(d = ' ') := by
    intro d hd
    rcases (by simpa [OPERATORS] using hd : d = '+' ∨ d = '-' ∨ d = '*')
      with h | h | h <;> subst h <;> decide
  have ht1ns : t1.all (fun c => !(pyIsSpace c)) = true :=
    List.all_eq_true.mpr fun c hc => by
      have h := List.all_eq_true.mp ht1 c hc
      rw [Bool.and_eq_true] at h
      exact h.1
  have ht2ns : t2.all (fun c => !(pyIsSpace c)) = true :=
    List.all_eq_true.mpr fun c hc => by
      have h := List.all_eq_true.mp ht2 c hc
      rw [Bool.and_eq_true] at h
      exact h.1
  have ht1nomem : ∀ d ∈ OPERATORS, d ∉ t1 := by
    intro d hd hdt
    have h := List.all_eq_true.mp ht1 d hdt
    rw [Bool.and_eq_true] at h
    have h2 := h.2
    rw [Bool.not_eq_true'] at h2
    have h1 : OPERATORS.contains d = true := List.elem_eq_true_of_mem hd
    rw [h2] at h1
    exact absurd h1 (by decide)
  have ht2nomem : ∀ d ∈ OPERATORS, d ∉ t2 := by
    intro d hd hdt
    have h := List.all_eq_true.mp ht2 d hdt
    rw [Bool.and_eq_true] at h
    have h2 := h.2
    rw [Bool.not_eq_true'] at h2
    have h1 : OPERATORS.contains d = true := List.elem_eq_true_of_mem hd
    rw [h2] at h1
    exact absurd h1 (by decide)
  have ht1no : ∀ c ∈ t1, ¬(c = op) := fun c hc h => ht1nomem op hop (h ▸ hc)
  have ht2no : ∀ c ∈ t2, ¬(c = op) := fun c hc h => ht2nomem op hop (h ▸ hc)
  obtain ⟨a1, t1', rfl⟩ := List.exists_cons_of_ne_nil hne1
  have ha1 : pyIsSpace a1 = false := by
    have h := List.all_eq_true.mp ht1ns a1 (List.mem_cons_self _ _)
    rwa [Bool.not_eq_true'] at h
  have hlastS1 : ∀ c,
      (a1 :: ((t1' ++ w2) ++ (op :: (w3 ++ t2)))).getLast? = some c →
      pyIsSpace c = false := by
    intro c hc
    have h1 : (((a1 :: t1') ++ w2) ++ (op :: (w3 ++ t2))).getLast? =
        some c := hc
    rw [List.getLast?_append_of_ne_nil _ (List.cons_ne_nil _ _)] at h1
    have h2 : ((op :: w3) ++ t2).getLast? = some c := h1
    rw [List.getLast?_append_of_ne_nil _ hne2] at h2
    exact getLast_nonspace t2 ht2ns c h2
  have hs1 : pyStrip (w1 ++ ((a1 :: t1') ++ w2 ++ op :: (w3 ++ t2)) ++ w4) =
      (a1 :: t1') ++ w2 ++ op :: (w3 ++ t2) := by
    show pyStrip (w1 ++ (a1 :: ((t1' ++ w2) ++ (op :: (w3 ++ t2)))) ++ w4) =
      a1 :: ((t1' ++ w2) ++ (op :: (w3 ++ t2)))
    exact pyStrip_sandwich w1 w4 a1 _ hw1 hw4 ha1 hlastS1
  have hlastS2 : ∀ c, (a1 :: (t1' ++ (op :: t2))).getLast? = some c →
      pyIsSpace c = false := by
    intro c hc
    have h1 : ((a1 :: t1') ++ (op :: t2)).getLast? = some c := hc
    rw [List.getLast?_append_of_ne_nil _ (List.cons_ne_nil _ _)] at h1
    have h2 : ((op :: []) ++ t2).getLast? = some c := h1
    rw [List.getLast?_append_of_ne_nil _ hne2] at h2
    exact getLast_nonspace t2 ht2ns c h2
  have hs2 : pyStrip ((a1 :: t1') ++ op :: t2) = (a1 :: t1') ++ op :: t2 := by
    show pyStrip (a1 :: (t1' ++ (op :: t2))) = a1 :: (t1' ++ (op :: t2))
    exact pyStrip_clean a1 _ ha1 hlastS2
  have hw2any : (w2.any fun char => !(ALLOWED_CHARS.contains char)) =
      false :=
    List.any_eq_false.mpr fun c hc => by rw [hw2 c hc]; decide
  have hw3any : (w3.any fun char => !(ALLOWED_CHARS.contains char)) =
      false :=
    List.any_eq_false.mpr fun c hc => by rw [hw3 c hc]; decide
  have hcont : ∀ d ∈ OPERATORS,
      ((a1 :: t1') ++ w2 ++ op :: (w3 ++ t2)).contains d =
      ((a1 :: t1') ++ op :: t2).contains d := by
    intro d hd
    rw [Bool.eq_iff_iff, contains_eq_true_iff, contains_eq_true_iff]
    have hd1 : d ∉ a1 :: t1' := ht1nomem d hd
    have hd2 : d ∉ t2 := ht2nomem d hd
    have hdw2 : d ∉ w2 := fun hc => hd_ne_space d hd (hw2 d hc)
    have hdw3 : d ∉ w3 := fun hc => hd_ne_space d hd (hw3 d hc)
    constructor
    · intro h
      rcases List.mem_append.mp h with h1 | h1
      · rcases List.mem_append.mp h1 with h2 | h2
        · exact List.mem_append.mpr (Or.inl h2)
        · exact absurd h2 hdw2
      · rcases List.mem_cons.mp h1 with h2 | h2
        · exact List.mem_append.mpr (Or.inr (List.mem_cons.mpr (Or.inl h2)))
        · rcases List.mem_append.mp h2 with h3 | h3
          · exact absurd h3 hdw3
          · exact List.mem_append.mpr
              (Or.inr (List.mem_cons.mpr (Or.inr h3)))
    · intro h
      rcases List.mem_append.mp h with h1 | h1
      · exact List.mem_append.mpr (Or.inl (List.mem_append.mpr (Or.inl h1)))
      · rcases List.mem_cons.mp h1 with h2 | h2
        · exact List.mem_append.mpr (Or.inr (List.mem_cons.mpr (Or.inl h2)))
        · exact List.mem_append.mpr (Or.inr (List.mem_cons.mpr
            (Or.inr (List.mem_append.mpr (Or.inr h2)))))
  apply addVirtualColumn_rule_congr
  · rw [hs1, hs2]
    simp only [List.any_append, List.any_cons, hw2any, hw3any,
      Bool.or_false, Bool.false_or]
  · rw [hs1, hs2]
    exact hcont '+' (by decide)
  · rw [hs1, hs2]
    exact hcont '-' (by decide)
  · rw [hs1, hs2]
    exact hcont '*' (by decide)
  · intro d hd
    rw [hs1, hs2]
    by_cases hdo : d = op
    · subst hdo
      exact parse_eq_padded df d (a1 :: t1') t2 w2 w3 hw2 hw3
        (fun he => hd_ne_space d hd he.symm) ht1ns ht2ns ht1no ht2no
        (List.cons_ne_nil _ _) hne2
    · have hnall1 : ∀ c ∈ (a1 :: t1') ++ w2 ++ op :: (w3 ++ t2),
          ¬(c = d) := by
        intro c hc heq
        subst heq
        rcases List.mem_append.mp hc with h1 | h1
        · rcases List.mem_append.mp h1 with h2 | h2
          · exact ht1nomem c hd h2
          · exact hd_ne_space c hd (hw2 c h2)
        · rcases List.mem_cons.mp h1 with h2 | h2
          · exact hdo h2
          · rcases List.mem_append.mp h2 with h3 | h3
            · exact hd_ne_space c hd (hw3 c h3)
            · exact ht2nomem c hd h3
      have hnall2 : ∀ c ∈ (a1 :: t1') ++ op :: t2, ¬(c = d) := by
        intro c hc heq
        subst heq
        rcases List.mem_append.mp hc with h1 | h1
        · exact ht1nomem c hd h1
        · rcases List.mem_cons.mp h1 with h2 | h2
          · exact hdo h2
          · exact ht2nomem c hd h2
      have h1 := pySplitChar_no_sep d _ hnall1
      have h2 := pySplitChar_no_sep d _ hnall2
      unfold parseAndValidateRule
      rw [h1, h2]

/-- Witness for the amended C8 at the repository's test scenario 6:
`"  label_one + label_two "` equals `"label_one+label_two"` in effect. -/
theorem claim_C8_whitespace_witness :
    addVirtualColumn exDf
      ("  ".data ++ ("label_one".data ++ " ".data ++ '+' ::
        (" ".data ++ "label_two".data)) ++ " ".data) "label_three".data =
    addVirtualColumn exDf ("label_one".data ++ '+' :: "label_two".data)
      "label_three".data :=
  claim_C8_whitespace exDf "label_three".data "label_one".data
    "label_two".data "  ".data " ".data " ".data " ".data '+'
    (by decide) (by decide) (by decide) (by decide) (by decide)
    (by decide) (by decide) (by decide) (by decide)

end VirtualColumn
